import Mathlib

set_option maxHeartbeats 1000000

/-!
Verification of the GPU vector index facade of LumaDB
(src/python-ai/tdbai/vector_gpu.py) against its natural-language
specification.

The file is a shallow embedding of the facade class GPUVectorIndex.  The
external FAISS/numpy entry points the facade calls are collected in a
FaissEnv record: a faiss CPU index object is an abstract type CpuIdx, a
serialized index blob an abstract type Blob, and errors raised inside the
library an abstract type eps.  The boolean faiss_available mirrors the
module-level flag FAISS_AVAILABLE; when it is false the facade runs its
mock code paths exactly as in the source.  A numpy array is modelled as a
dtype tag plus a list of rows of Lean Floats; values are carried at a
single Float precision, astype only retags the dtype (standing for the
copy numpy makes).  Python exceptions are modelled with an Except result;
each operation also returns the facade state after the call and the
contents of the caller-supplied input array after the call (numpy arrays
are mutable and faiss.normalize_L2 works in place, so the caller can
observe mutation of its own array).
-/

/-- Numpy element types, as far as the facade inspects them: the source
only ever compares dtype against np.float32. -/
inductive NpDType where
  | float32
  | float64
  | int64
deriving DecidableEq

/-- A numpy 2-d float array: dtype tag plus rows. -/
structure NpArray where
  dtype : NpDType
  rows : List (List Float)

/-- The sentinel distance np.inf used to pad filtered search results. -/
def npInf : Float := 1.0 / 0.0

/-- Model of ndarray.astype(np.float32): a fresh array tagged float32
(the numeric payload is already carried as Float in the model). -/
def NpArray.astype_float32 (a : NpArray) : NpArray :=
  { a with dtype := NpDType.float32 }

/-- Model of np.zeros((n, k)) for float arrays. -/
def np_zeros_float (n k : Nat) : List (List Float) :=
  List.replicate n (List.replicate k (0.0 : Float))

/-- Model of np.zeros((n, k), dtype=np.int64). -/
def np_zeros_int (n k : Nat) : List (List Int) :=
  List.replicate n (List.replicate k (0 : Int))

/-- Configuration for GPU vector index, dataclass GPUIndexConfig of the
source, with the source's default field values. -/
structure GPUIndexConfig where
  dim : Nat
  nlist : Nat := 16384
  m : Nat := 64
  nbits : Nat := 8
  nprobe : Nat := 128
  use_float16 : Bool := true
  num_gpus : Nat := 1
deriving DecidableEq

/-- The FAISS library surface the facade calls, plus the availability flag.
gpu_search models running a query batch on the GPU clone of a CPU index:
the clone is a function of the CPU index and of the cloner options, which
the source derives from the config (shard, useFloat16), so the model passes
the config and the cloned CPU snapshot explicitly together with nprobe. -/
structure FaissEnv (CpuIdx Blob eps : Type) where
  faiss_available : Bool
  normalize_L2 : NpArray → NpArray
  index_IVFPQ : GPUIndexConfig → CpuIdx
  cpu_train : CpuIdx → NpArray → Except eps CpuIdx
  cpu_add : CpuIdx → NpArray → Except eps CpuIdx
  cpu_add_with_ids : CpuIdx → NpArray → List Int → Except eps CpuIdx
  gpu_search : GPUIndexConfig → CpuIdx → Nat → NpArray → Nat → List (List Float) × List (List Int)
  write_index : CpuIdx → Blob
  read_index : Blob → Except eps CpuIdx
  ntotal : CpuIdx → Nat

/-- Python-level errors the facade can surface: the ValueError it raises
itself in add, the AttributeError that accessing gpu_index.nprobe on None
produces in search, and errors propagating out of the FAISS library. -/
inductive PyError (eps : Type) where
  | valueError (msg : String)
  | attributeError (msg : String)
  | backend (e : eps)
deriving DecidableEq

/-- Message of the ValueError raised by add on an untrained index. -/
def untrainedMsg : String := "Index must be trained before adding vectors"

/-- Message of the AttributeError raised when search dereferences
gpu_index while it is still None. -/
def noneNprobeMsg : String := "NoneType object has no attribute nprobe"

/-- State of a GPUVectorIndex object: the config, the trained flag, the
mock-mode vector store, the number of GPU resource handles, the FAISS CPU
index object and the optional GPU clone (modelled as the CPU snapshot it
was cloned from). -/
structure GPUVectorIndex (CpuIdx : Type) where
  config : GPUIndexConfig
  is_trained : Bool
  mock_vectors : List (List Float)
  gpu_resources : Nat
  cpu_index : CpuIdx
  gpu_index : Option CpuIdx

/-- Outcome of one facade method call: the facade state after the call,
the returned value or raised exception, and the contents of the
caller-supplied array after the call (in-place mutation made explicit). -/
structure OpOutcome (CpuIdx eps α : Type) where
  state : GPUVectorIndex CpuIdx
  result : Except (PyError eps) α
  caller : NpArray

variable {CpuIdx Blob eps : Type}

/-- GPUVectorIndex.__init__: untrained, empty mock store, num_gpus GPU
resources when FAISS is available (none in mock mode, where the source
returns early), a fresh IVFPQ CPU index and no GPU index yet. -/
def GPUVectorIndex.init (env : FaissEnv CpuIdx Blob eps) (config : GPUIndexConfig) :
    GPUVectorIndex CpuIdx :=
  { config := config
    is_trained := false
    mock_vectors := []
    gpu_resources := if env.faiss_available = true then config.num_gpus else 0
    cpu_index := env.index_IVFPQ config
    gpu_index := none }

/-- GPUVectorIndex._sync_to_gpu: clone the CPU index to the GPU when FAISS
is available and the GPU resource list is non-empty. -/
def GPUVectorIndex.sync_to_gpu (env : FaissEnv CpuIdx Blob eps)
    (idx : GPUVectorIndex CpuIdx) : GPUVectorIndex CpuIdx :=
  if env.faiss_available = true ∧ idx.gpu_resources ≠ 0 then
    { idx with gpu_index := some idx.cpu_index }
  else idx

/-- The dtype-conversion-plus-normalization prologue shared by train, add
and search: astype(float32) when the dtype differs, then in-place
faiss.normalize_L2 on the (possibly fresh) array. -/
def prepArray (env : FaissEnv CpuIdx Blob eps) (a : NpArray) : NpArray :=
  env.normalize_L2 (if a.dtype ≠ NpDType.float32 then a.astype_float32 else a)

/-- What the caller's own array holds after the prologue: when the dtype
was already float32 no copy is made and normalize_L2 mutates the caller's
array in place; otherwise astype copied and the caller's array is
untouched. -/
def callerAfterPrep (env : FaissEnv CpuIdx Blob eps) (a : NpArray) : NpArray :=
  if a.dtype = NpDType.float32 then prepArray env a else a

/-- GPUVectorIndex.train: mock mode just sets is_trained; the FAISS path
converts and normalizes the sample in place, trains the CPU index,
re-clones to GPU and marks the index trained.  An exception from the
backend train propagates before is_trained is assigned, leaving the
object unchanged. -/
def GPUVectorIndex.train (env : FaissEnv CpuIdx Blob eps)
    (idx : GPUVectorIndex CpuIdx) (vectors : NpArray) :
    OpOutcome CpuIdx eps Unit :=
  if env.faiss_available = false then
    { state := { idx with is_trained := true }, result := Except.ok (), caller := vectors }
  else
    let v := prepArray env vectors
    let caller := callerAfterPrep env vectors
    match env.cpu_train idx.cpu_index v with
    | Except.error e => { state := idx, result := Except.error (PyError.backend e), caller := caller }
    | Except.ok ci =>
        let idx2 := GPUVectorIndex.sync_to_gpu env { idx with cpu_index := ci }
        { state := { idx2 with is_trained := true }, result := Except.ok (), caller := caller }

/-- GPUVectorIndex.add: raises ValueError when not trained; mock mode
extends the mock vector list; the FAISS path converts and normalizes in
place, adds (with or without explicit ids) and re-clones to GPU. -/
def GPUVectorIndex.add (env : FaissEnv CpuIdx Blob eps)
    (idx : GPUVectorIndex CpuIdx) (vectors : NpArray) (ids : Option (List Int)) :
    OpOutcome CpuIdx eps Unit :=
  if idx.is_trained = false then
    { state := idx, result := Except.error (PyError.valueError untrainedMsg), caller := vectors }
  else if env.faiss_available = false then
    { state := { idx with mock_vectors := idx.mock_vectors ++ vectors.rows }
      result := Except.ok (), caller := vectors }
  else
    let v := prepArray env vectors
    let caller := callerAfterPrep env vectors
    let r := match ids with
      | some l => env.cpu_add_with_ids idx.cpu_index v l
      | none => env.cpu_add idx.cpu_index v
    match r with
    | Except.error e => { state := idx, result := Except.error (PyError.backend e), caller := caller }
    | Except.ok ci =>
        { state := GPUVectorIndex.sync_to_gpu env { idx with cpu_index := ci }
          result := Except.ok (), caller := caller }

/-- GPUVectorIndex.search: mock mode returns zero matrices of shape (n, k)
without touching the input; the FAISS path converts and normalizes the
queries in place, resolves the nprobe default from the config, then sets
gpu_index.nprobe and searches — when gpu_index is still None that
attribute assignment raises an AttributeError.  There is no trained-state
check. -/
def GPUVectorIndex.search (env : FaissEnv CpuIdx Blob eps)
    (idx : GPUVectorIndex CpuIdx) (queries : NpArray) (k : Nat) (nprobe : Option Nat) :
    OpOutcome CpuIdx eps (List (List Float) × List (List Int)) :=
  if env.faiss_available = false then
    { state := idx
      result := Except.ok (np_zeros_float queries.rows.length k, np_zeros_int queries.rows.length k)
      caller := queries }
  else
    let q := prepArray env queries
    let caller := callerAfterPrep env queries
    let np2 := nprobe.getD idx.config.nprobe
    match idx.gpu_index with
    | none => { state := idx, result := Except.error (PyError.attributeError noneNprobeMsg), caller := caller }
    | some g => { state := idx, result := Except.ok (env.gpu_search idx.config g np2 q k), caller := caller }

/-- Model of np.isin(indices, filter_ids): elementwise membership mask. -/
def isin (mat : List (List Int)) (filter_ids : List Int) : List (List Bool) :=
  mat.map (fun row => row.map (fun x => decide (x ∈ filter_ids)))

/-- Boolean-mask selection, as numpy array[mask] does on one row. -/
def boolMask {α : Type} : List Bool → List α → List α
  | b :: bs, x :: xs => if b then x :: boolMask bs xs else boolMask bs xs
  | _, _ => []

/-- One row of the post-filter step of search_with_filter: select the
masked candidates, keep the first min(len(valid), k) of them, and leave
the remaining slots at the np.full fill values inf and -1. -/
def filteredRow (k : Nat) (dists : List Float) (ids : List Int) (mask : List Bool) :
    List Float × List Int :=
  let valid_dists := boolMask mask dists
  let valid_ids := boolMask mask ids
  let n_valid := Nat.min valid_dists.length k
  (valid_dists.take n_valid ++ List.replicate (k - n_valid) npInf,
   valid_ids.take n_valid ++ List.replicate (k - n_valid) (-1 : Int))

/-- The post-filter block of search_with_filter: the np.isin mask over the
over-fetched indices, then per query row the first-k selection into the
np.full sentinel matrices, for n_queries rows. -/
def postFilter (k : Nat) (filter_ids : List Int) (n_queries : Nat)
    (distances : List (List Float)) (indices : List (List Int)) :
    List (List Float) × List (List Int) :=
  let mask := isin indices filter_ids
  let rows := (List.range n_queries).map (fun i =>
    filteredRow k (distances.getD i []) (indices.getD i []) (mask.getD i []))
  (rows.map Prod.fst, rows.map Prod.snd)

/-- GPUVectorIndex.search_with_filter: over-fetch k*10 candidates per
query via the unfiltered search, mask them by membership in filter_ids,
and per query keep the first k surviving results, padding with
(inf, -1).  An exception from the inner search propagates; the facade
state and the caller array are those the inner search leaves behind. -/
def GPUVectorIndex.search_with_filter (env : FaissEnv CpuIdx Blob eps)
    (idx : GPUVectorIndex CpuIdx) (queries : NpArray) (k : Nat) (filter_ids : List Int) :
    OpOutcome CpuIdx eps (List (List Float) × List (List Int)) :=
  let o := idx.search env queries (k * 10) none
  { state := o.state
    caller := o.caller
    result :=
      match o.result with
      | Except.error e => Except.error e
      | Except.ok (distances, indices) =>
          Except.ok (postFilter k filter_ids queries.rows.length distances indices) }

/-- GPUVectorIndex.save: serialize the CPU index when FAISS is available;
the mock path writes nothing. -/
def GPUVectorIndex.save (env : FaissEnv CpuIdx Blob eps)
    (idx : GPUVectorIndex CpuIdx) : Option Blob :=
  if env.faiss_available = true then some (env.write_index idx.cpu_index) else none

/-- GPUVectorIndex.load (classmethod): build a fresh facade from the
caller-supplied config; when FAISS is available, read the persisted CPU
index, clone it to GPU and mark the new facade trained.  No compatibility
check between the blob and the caller config is performed. -/
def GPUVectorIndex.load (env : FaissEnv CpuIdx Blob eps)
    (blob : Blob) (config : GPUIndexConfig) :
    Except (PyError eps) (GPUVectorIndex CpuIdx) :=
  let index := GPUVectorIndex.init env config
  if env.faiss_available = true then
    match env.read_index blob with
    | Except.error e => Except.error (PyError.backend e)
    | Except.ok ci =>
        let index2 := GPUVectorIndex.sync_to_gpu env { index with cpu_index := ci }
        Except.ok { index2 with is_trained := true }
  else Except.ok index

/-- GPUVectorIndex.__len__: count of stored vectors. -/
def GPUVectorIndex.size (env : FaissEnv CpuIdx Blob eps)
    (idx : GPUVectorIndex CpuIdx) : Nat :=
  if env.faiss_available = false then idx.mock_vectors.length else env.ntotal idx.cpu_index

/-- One facade method invocation, for stating reachability and
state-machine invariants over the mutating surface of a single facade
object.  load is a classmethod constructing a fresh object and never
mutates an existing index, so it does not appear as a step. -/
inductive FacadeOp where
  | train (v : NpArray)
  | add (v : NpArray) (ids : Option (List Int))
  | search (q : NpArray) (k : Nat) (nprobe : Option Nat)
  | search_with_filter (q : NpArray) (k : Nat) (filter_ids : List Int)
  | save

/-- The facade state after one method invocation. -/
def FacadeOp.step (env : FaissEnv CpuIdx Blob eps)
    (idx : GPUVectorIndex CpuIdx) : FacadeOp → GPUVectorIndex CpuIdx
  | FacadeOp.train v => (idx.train env v).state
  | FacadeOp.add v ids => (idx.add env v ids).state
  | FacadeOp.search q k np2 => (idx.search env q k np2).state
  | FacadeOp.search_with_filter q k f => (idx.search_with_filter env q k f).state
  | FacadeOp.save => idx

/-- The facade state after a sequence of method invocations. -/
def runOps (env : FaissEnv CpuIdx Blob eps)
    (idx : GPUVectorIndex CpuIdx) : List FacadeOp → GPUVectorIndex CpuIdx
  | [] => idx
  | op :: ops => runOps env (FacadeOp.step env idx op) ops

/-- One row of filtered search as the specification words it: discard the
candidates whose id is not in the allowed set, keep the first k survivors
in the order of the unfiltered results, pad with sentinel (inf, -1)
pairs.  This definition follows the specification text and is used only to
compare the source-derived search_with_filter against it. -/
def specRow (k : Nat) (allowed : List Int) (row : List Float × List Int) :
    List Float × List Int :=
  let survivors := (row.1.zip row.2).filter (fun c => decide (c.2 ∈ allowed))
  let kept := survivors.take k
  (kept.map Prod.fst ++ List.replicate (k - kept.length) npInf,
   kept.map Prod.snd ++ List.replicate (k - kept.length) (-1 : Int))

/-- Filtered search as the specification words it, applied per query row
to the over-fetched unfiltered results. -/
def spec_filtered_search (k : Nat) (allowed : List Int)
    (dists : List (List Float)) (ids : List (List Int)) :
    List (List Float) × List (List Int) :=
  let rows := (dists.zip ids).map (specRow k allowed)
  (rows.map Prod.fst, rows.map Prod.snd)

/-! Concrete fixtures used to evaluate the model on closed inputs. -/

/-- Environment with FAISS unavailable: the facade runs its mock paths and
never calls the library fields. -/
def envMock : FaissEnv Unit Unit Unit :=
  { faiss_available := false
    normalize_L2 := id
    index_IVFPQ := fun _ => ()
    cpu_train := fun _ _ => Except.ok ()
    cpu_add := fun _ _ => Except.ok ()
    cpu_add_with_ids := fun _ _ _ => Except.ok ()
    gpu_search := fun _ _ _ _ _ => ([], [])
    write_index := fun _ => ()
    read_index := fun _ => Except.ok ()
    ntotal := fun _ => 0 }

/-- FAISS-available environment in which a CPU index is represented by the
config it was built from, so a persisted blob visibly embeds its
configuration, and write/read round-trip losslessly. -/
def envCfg : FaissEnv GPUIndexConfig GPUIndexConfig Unit :=
  { faiss_available := true
    normalize_L2 := id
    index_IVFPQ := fun c => c
    cpu_train := fun ci _ => Except.ok ci
    cpu_add := fun ci _ => Except.ok ci
    cpu_add_with_ids := fun ci _ _ => Except.ok ci
    gpu_search := fun _ _ _ _ _ => ([], [])
    write_index := fun ci => ci
    read_index := fun b => Except.ok b
    ntotal := fun _ => 0 }

/-- FAISS-available environment whose training call always raises, to
exercise the failure path of train. -/
def envTrainFail : FaissEnv Unit Unit Unit :=
  { envMock with
    faiss_available := true
    cpu_train := fun _ _ => Except.error () }

/-- Small config fixture with default field values. -/
def cfgDim4 : GPUIndexConfig := { dim := 4 }

/-- Config fixture with a small cluster count for the training-sample
counterexample. -/
def cfgSmall : GPUIndexConfig := { dim := 4, nlist := 8 }

/-- Config fixture with dimension 64. -/
def cfg64 : GPUIndexConfig := { dim := 64 }

/-- Config fixture with dimension 128. -/
def cfg128 : GPUIndexConfig := { dim := 128 }

/-- A one-row float32 sample batch. -/
def arrOne : NpArray := { dtype := NpDType.float32, rows := [[1.0, 0.0, 0.0, 0.0]] }

/-- An empty float32 batch. -/
def arrEmpty : NpArray := { dtype := NpDType.float32, rows := [] }

/-- A one-row float32 query batch. -/
def queryOne : NpArray := { dtype := NpDType.float32, rows := [[0.0, 0.0, 0.0, 0.0]] }

/-- A freshly constructed (untrained) mock-mode facade. -/
def idxMockUntrained : GPUVectorIndex Unit := GPUVectorIndex.init envMock cfgDim4

/-- A mock-mode facade right after a successful train call; it holds zero
entries. -/
def idxMockTrained : GPUVectorIndex Unit :=
  ((GPUVectorIndex.init envMock cfgDim4).train envMock arrOne).state

/-- A FAISS-mode facade over envCfg right after a successful train call. -/
def idxCfgTrained : GPUVectorIndex GPUIndexConfig :=
  ((GPUVectorIndex.init envCfg cfg64).train envCfg arrEmpty).state

/-! Helper lemmas about the list plumbing of the filtered search. -/

theorem boolMask_zip_fst {α β : Type} (p : β → Bool) :
    ∀ (xs : List α) (ys : List β),
    boolMask (ys.map p) xs = ((xs.zip ys).filter (fun c => p c.2)).map Prod.fst := by
  intro xs
  induction xs with
  | nil => intro ys; cases ys <;> simp [boolMask]
  | cons x xs ih =>
    intro ys
    cases ys with
    | nil => simp [boolMask]
    | cons y ys =>
      by_cases h : p y
      · simp [boolMask, h, ih]
      · simp [boolMask, h, ih]

theorem boolMask_map_self {β : Type} (p : β → Bool) :
    ∀ ys : List β, boolMask (ys.map p) ys = ys.filter p := by
  intro ys
  induction ys with
  | nil => rfl
  | cons y ys ih =>
    by_cases h : p y
    · simp [boolMask, h, ih]
    · simp [boolMask, h, ih]

theorem zip_filter_snd {α β : Type} (p : β → Bool) :
    ∀ (xs : List α) (ys : List β), xs.length = ys.length →
    ((xs.zip ys).filter (fun c => p c.2)).map Prod.snd = ys.filter p := by
  intro xs
  induction xs with
  | nil =>
    intro ys h
    cases ys with
    | nil => rfl
    | cons y ys => exact absurd h (by simp)
  | cons x xs ih =>
    intro ys h
    cases ys with
    | nil => exact absurd h (by simp)
    | cons y ys =>
      have h2 : xs.length = ys.length := by simpa using h
      by_cases hp : p y
      · simp [hp, ih ys h2]
      · simp [hp, ih ys h2]

theorem take_min_length {α : Type} (l : List α) (k : Nat) :
    l.take (Nat.min l.length k) = l.take k := by
  have hm : Nat.min l.length k = min l.length k := rfl
  rcases Nat.le_total l.length k with h | h
  · rw [hm, min_eq_left h, List.take_length, List.take_of_length_le h]
  · rw [hm, min_eq_right h]

theorem getD_isin (fids : List Int) :
    ∀ (mat : List (List Int)) (i : Nat),
    (isin mat fids).getD i [] = (mat.getD i []).map (fun x => decide (x ∈ fids)) := by
  intro mat
  induction mat with
  | nil => intro i; rfl
  | cons r rs ih =>
    intro i
    cases i with
    | zero => rfl
    | succ n => exact ih n

theorem take_min_of_length_eq {α : Type} (l : List α) (n k : Nat) (h : l.length = n) :
    l.take (Nat.min n k) = l.take k := by
  subst h
  exact take_min_length l k

theorem filteredRow_eq_specRow (k : Nat) (allowed : List Int) (dr : List Float) (ir : List Int)
    (h : dr.length = ir.length) :
    filteredRow k dr ir (ir.map (fun x => decide (x ∈ allowed))) = specRow k allowed (dr, ir) := by
  have hfst := boolMask_zip_fst (fun x => decide (x ∈ allowed)) dr ir
  have hsnd : boolMask (ir.map fun x => decide (x ∈ allowed)) ir
      = ((dr.zip ir).filter (fun c => decide (c.2 ∈ allowed))).map Prod.snd := by
    rw [boolMask_map_self]
    exact (zip_filter_snd _ dr ir h).symm
  simp only [filteredRow, specRow, hfst, hsnd, List.length_map]
  rw [take_min_of_length_eq _ _ k (List.length_map _ _),
      take_min_of_length_eq _ _ k (List.length_map _ _)]
  have hcount : k - Nat.min ((dr.zip ir).filter (fun c => decide (c.2 ∈ allowed))).length k
      = k - (((dr.zip ir).filter (fun c => decide (c.2 ∈ allowed))).take k).length := by
    rw [List.length_take, Nat.min_comm]
  rw [hcount, List.map_take, List.map_take]

theorem sync_is_trained (env : FaissEnv CpuIdx Blob eps) (idx : GPUVectorIndex CpuIdx) :
    (GPUVectorIndex.sync_to_gpu env idx).is_trained = idx.is_trained := by
  unfold GPUVectorIndex.sync_to_gpu
  split <;> rfl

theorem search_state (env : FaissEnv CpuIdx Blob eps) (idx : GPUVectorIndex CpuIdx)
    (q : NpArray) (k : Nat) (np2 : Option Nat) :
    (GPUVectorIndex.search env idx q k np2).state = idx := by
  unfold GPUVectorIndex.search
  split
  · rfl
  · cases idx.gpu_index <;> rfl

theorem swf_state (env : FaissEnv CpuIdx Blob eps) (idx : GPUVectorIndex CpuIdx)
    (q : NpArray) (k : Nat) (f : List Int) :
    (GPUVectorIndex.search_with_filter env idx q k f).state = idx :=
  search_state env idx q (k * 10) none

theorem swf_result (env : FaissEnv CpuIdx Blob eps) (idx : GPUVectorIndex CpuIdx)
    (q : NpArray) (k : Nat) (f : List Int) :
    (GPUVectorIndex.search_with_filter env idx q k f).result
      = match (idx.search env q (k * 10) none).result with
        | Except.error e => Except.error e
        | Except.ok (d, i) => Except.ok (postFilter k f q.rows.length d i) := rfl

theorem step_preserves_trained (env : FaissEnv CpuIdx Blob eps) (idx : GPUVectorIndex CpuIdx)
    (op : FacadeOp) (h : idx.is_trained = true) :
    (FacadeOp.step env idx op).is_trained = true := by
  cases op with
  | train v =>
    show ((idx.train env v).state).is_trained = true
    simp only [GPUVectorIndex.train]
    split
    · rfl
    · split
      · exact h
      · rfl
  | add v ids =>
    show ((idx.add env v ids).state).is_trained = true
    unfold GPUVectorIndex.add
    rw [if_neg (show ¬ idx.is_trained = false by simp [h])]
    by_cases hf : env.faiss_available = false
    · rw [if_pos hf]
      exact h
    · rw [if_neg hf]
      cases ids with
      | none =>
        cases hr : env.cpu_add idx.cpu_index (prepArray env v) with
        | error e => simp [hr, h]
        | ok ci => simp [hr, sync_is_trained, h]
      | some l =>
        cases hr : env.cpu_add_with_ids idx.cpu_index (prepArray env v) l with
        | error e => simp [hr, h]
        | ok ci => simp [hr, sync_is_trained, h]
  | search q k np2 =>
    show ((idx.search env q k np2).state).is_trained = true
    rw [search_state]
    exact h
  | search_with_filter q k f =>
    show ((idx.search_with_filter env q k f).state).is_trained = true
    rw [swf_state]
    exact h
  | save => exact h

theorem step_to_trained_only_train (env : FaissEnv CpuIdx Blob eps) (idx : GPUVectorIndex CpuIdx)
    (op : FacadeOp) (h0 : idx.is_trained = false)
    (h1 : (FacadeOp.step env idx op).is_trained = true) : ∃ v, op = FacadeOp.train v := by
  cases op with
  | train v => exact ⟨v, rfl⟩
  | add v ids =>
    exfalso
    have hx : (FacadeOp.step env idx (FacadeOp.add v ids)).is_trained = false := by
      show ((idx.add env v ids).state).is_trained = false
      simp [GPUVectorIndex.add, h0]
    rw [h1] at hx
    exact Bool.noConfusion hx
  | search q k np2 =>
    exfalso
    have hx : (FacadeOp.step env idx (FacadeOp.search q k np2)).is_trained = false := by
      show ((idx.search env q k np2).state).is_trained = false
      rw [search_state]
      exact h0
    rw [h1] at hx
    exact Bool.noConfusion hx
  | search_with_filter q k f =>
    exfalso
    have hx : (FacadeOp.step env idx (FacadeOp.search_with_filter q k f)).is_trained = false := by
      show ((idx.search_with_filter env q k f).state).is_trained = false
      rw [swf_state]
      exact h0
    rw [h1] at hx
    exact Bool.noConfusion hx
  | save =>
    exfalso
    have hx : (FacadeOp.step env idx FacadeOp.save).is_trained = false := h0
    rw [h1] at hx
    exact Bool.noConfusion hx

theorem step_gpu_inv (env : FaissEnv CpuIdx Blob eps) (idx : GPUVectorIndex CpuIdx)
    (op : FacadeOp) (hinv : idx.is_trained = false → idx.gpu_index = none)
    (h1 : (FacadeOp.step env idx op).is_trained = false) :
    (FacadeOp.step env idx op).gpu_index = none := by
  cases op with
  | train v =>
    by_cases hf : env.faiss_available = false
    · exfalso
      have hx : (FacadeOp.step env idx (FacadeOp.train v)).is_trained = true := by
        show ((idx.train env v).state).is_trained = true
        simp [GPUVectorIndex.train, hf]
      rw [h1] at hx
      exact Bool.noConfusion hx
    · cases hr : env.cpu_train idx.cpu_index (prepArray env v) with
      | error e =>
        have hs : (FacadeOp.step env idx (FacadeOp.train v)) = idx := by
          show (idx.train env v).state = idx
          simp [GPUVectorIndex.train, hf, hr]
        rw [hs] at h1 ⊢
        exact hinv h1
      | ok ci =>
        exfalso
        have hx : (FacadeOp.step env idx (FacadeOp.train v)).is_trained = true := by
          show ((idx.train env v).state).is_trained = true
          simp [GPUVectorIndex.train, hf, hr]
        rw [h1] at hx
        exact Bool.noConfusion hx
  | add v ids =>
    by_cases h0 : idx.is_trained = false
    · have hs : (FacadeOp.step env idx (FacadeOp.add v ids)) = idx := by
        show (idx.add env v ids).state = idx
        simp [GPUVectorIndex.add, h0]
      rw [hs]
      exact hinv h0
    · exfalso
      have ht : idx.is_trained = true := by
        revert h0
        cases idx.is_trained <;> simp
      have hx := step_preserves_trained env idx (FacadeOp.add v ids) ht
      rw [h1] at hx
      exact Bool.noConfusion hx
  | search q k np2 =>
    have hs : (FacadeOp.step env idx (FacadeOp.search q k np2)) = idx :=
      search_state env idx q k np2
    rw [hs] at h1 ⊢
    exact hinv h1
  | search_with_filter q k f =>
    have hs : (FacadeOp.step env idx (FacadeOp.search_with_filter q k f)) = idx :=
      swf_state env idx q k f
    rw [hs] at h1 ⊢
    exact hinv h1
  | save => exact hinv h1

theorem runOps_trained (env : FaissEnv CpuIdx Blob eps) :
    ∀ (ops : List FacadeOp) (idx : GPUVectorIndex CpuIdx),
    idx.is_trained = true → (runOps env idx ops).is_trained = true := by
  intro ops
  induction ops with
  | nil => intro idx h; exact h
  | cons op ops ih => intro idx h; exact ih _ (step_preserves_trained env idx op h)

theorem runOps_gpu_inv (env : FaissEnv CpuIdx Blob eps) :
    ∀ (ops : List FacadeOp) (idx : GPUVectorIndex CpuIdx),
    (idx.is_trained = false → idx.gpu_index = none) →
    (runOps env idx ops).is_trained = false → (runOps env idx ops).gpu_index = none := by
  intro ops
  induction ops with
  | nil => intro idx h; exact h
  | cons op ops ih => intro idx h; exact ih _ (fun hh => step_gpu_inv env idx op h hh)

/-! Claim theorems. -/

/-- C1: for every query batch, every k and every allowed-id set, each id
returned by search_with_filter is either an element of the allowed-id set
or the sentinel -1; no id outside the set ever appears in the output. -/
theorem C1_filter_only_allowed_ids (env : FaissEnv CpuIdx Blob eps)
    (idx : GPUVectorIndex CpuIdx) (q : NpArray) (k : Nat) (fids : List Int)
    (D : List (List Float)) (I : List (List Int))
    (hres : (idx.search_with_filter env q k fids).result = Except.ok (D, I)) :
    ∀ row ∈ I, ∀ x ∈ row, x ∈ fids ∨ x = -1 := by
  intro row hrowmem x hx
  rw [swf_result] at hres
  cases h0 : (idx.search env q (k * 10) none).result with
  | error e =>
    rw [h0] at hres
    exact absurd hres (by simp)
  | ok pr =>
    obtain ⟨Ds, Is⟩ := pr
    rw [h0] at hres
    have hI : I = (postFilter k fids q.rows.length Ds Is).2 := by
      have hpair : postFilter k fids q.rows.length Ds Is = (D, I) := by
        simpa using hres
      rw [hpair]
    rw [hI] at hrowmem
    simp only [postFilter, List.map_map, List.mem_map, List.mem_range] at hrowmem
    obtain ⟨i, hi, hrow2⟩ := hrowmem
    simp only [Function.comp_apply] at hrow2
    rw [getD_isin] at hrow2
    rw [← hrow2] at hx
    simp only [filteredRow, boolMask_map_self] at hx
    rcases List.mem_append.mp hx with hxx | hxx
    · left
      have hmem := List.mem_of_mem_take hxx
      have hf := List.mem_filter.mp hmem
      exact of_decide_eq_true hf.2
    · right
      exact List.eq_of_mem_replicate hxx

/-- C1 witness: a concrete filtered search whose single returned id is the
sentinel -1, shown to satisfy the membership disjunction by the claim
theorem. -/
theorem C1_witness : (-1 : Int) ∈ ([5] : List Int) ∨ (-1 : Int) = -1 :=
  C1_filter_only_allowed_ids envMock idxMockTrained queryOne 1 [5]
    [[npInf]] [[(-1 : Int)]] rfl [(-1 : Int)] (by simp) (-1) (by simp)

/-- C8: search_with_filter obtains k*10 candidates per query from the
unfiltered search, discards candidates whose id is not in the allowed
set, keeps the first k survivors per query in the order of the unfiltered
(distance-sorted) results, and fills remaining output slots with the
sentinel pair (inf, -1): it coincides with the specification-side
definition of filtered search on the over-fetched results, whenever the
backend matrices are well-shaped (one row per query, distances and ids of
equal width). -/
theorem C8_swf_matches_spec (env : FaissEnv CpuIdx Blob eps)
    (idx : GPUVectorIndex CpuIdx) (q : NpArray) (k : Nat) (fids : List Int)
    (D : List (List Float)) (I : List (List Int))
    (hres : (idx.search env q (k * 10) none).result = Except.ok (D, I))
    (hD : D.length = q.rows.length) (hI : I.length = q.rows.length)
    (hw : ∀ i, (D.getD i []).length = (I.getD i []).length) :
    (idx.search_with_filter env q k fids).result
      = Except.ok (spec_filtered_search k fids D I) := by
  rw [swf_result, hres]
  show Except.ok (postFilter k fids q.rows.length D I) = _
  congr 1
  simp only [postFilter, spec_filtered_search]
  have key : (List.range q.rows.length).map (fun i =>
      filteredRow k (D.getD i []) (I.getD i []) ((isin I fids).getD i []))
      = (D.zip I).map (specRow k fids) := by
    apply List.ext_getElem
    · simp [hD, hI]
    · intro i h1 h2
      simp only [List.getElem_map, List.getElem_range, List.getElem_zip]
      have hq : i < q.rows.length := by simpa using h1
      have hqD : i < D.length := by rw [hD]; exact hq
      have hqI : i < I.length := by rw [hI]; exact hq
      have eD : D.getD i [] = D[i] := List.getD_eq_getElem D [] hqD
      have eI : I.getD i [] = I[i] := List.getD_eq_getElem I [] hqI
      rw [getD_isin, eD, eI]
      have hlen : (D[i]).length = (I[i]).length := by
        have := hw i
        rw [eD, eI] at this
        exact this
      exact filteredRow_eq_specRow k fids (D[i]) (I[i]) hlen
  rw [key]

/-- C8 witness: a concrete mock-mode filtered search shown equal to the
specification-side filtered search on the over-fetched zero matrices. -/
theorem C8_witness :
    (idxMockTrained.search_with_filter envMock queryOne 1 [5]).result
      = Except.ok (spec_filtered_search 1 [5] (np_zeros_float 1 10) (np_zeros_int 1 10)) :=
  C8_swf_matches_spec envMock idxMockTrained queryOne 1 [5]
    (np_zeros_float 1 10) (np_zeros_int 1 10) rfl rfl rfl
    (fun i => by cases i with | zero => rfl | succ n => rfl)

/-- C4: add on an Untrained index always fails with the untrained-index
ValueError (the facade realization of the specification's
UntrainedIndexError) and leaves the facade unchanged; once the index is
Trained, add never fails because of the index state — any error it can
surface is one propagating from the backend library call. -/
theorem C4_add_state_gate (env : FaissEnv CpuIdx Blob eps)
    (idx : GPUVectorIndex CpuIdx) (v : NpArray) (ids : Option (List Int)) :
    (idx.is_trained = false →
       (idx.add env v ids).result = Except.error (PyError.valueError untrainedMsg)
       ∧ (idx.add env v ids).state = idx)
    ∧ (idx.is_trained = true →
       ∀ e, (idx.add env v ids).result = Except.error e → ∃ b, e = PyError.backend b) := by
  constructor
  · intro h0
    constructor <;> simp [GPUVectorIndex.add, h0]
  · intro h1 e he
    by_cases hf : env.faiss_available = false
    · simp [GPUVectorIndex.add, h1, hf] at he
    · simp only [GPUVectorIndex.add, h1, hf] at he
      cases ids with
      | none =>
        cases hr : env.cpu_add idx.cpu_index (prepArray env v) with
        | error e2 =>
          simp [hr] at he
          exact ⟨e2, he.symm⟩
        | ok ci => simp [hr] at he
      | some l =>
        cases hr : env.cpu_add_with_ids idx.cpu_index (prepArray env v) l with
        | error e2 =>
          simp [hr] at he
          exact ⟨e2, he.symm⟩
        | ok ci => simp [hr] at he

/-- C4 witness: a concrete untrained facade on which add fails with the
untrained-index ValueError and leaves the state unchanged. -/
theorem C4_witness :
    (idxMockUntrained.add envMock arrOne none).result
        = Except.error (PyError.valueError untrainedMsg)
    ∧ (idxMockUntrained.add envMock arrOne none).state = idxMockUntrained :=
  (C4_add_state_gate envMock idxMockUntrained arrOne none).1 rfl

/-- C10: in the FAISS path, train, add (once trained) and search normalize
the caller-supplied array in place when its dtype is already float32 — the
caller's own array afterwards holds the normalized data — while arrays of
any other dtype are copied by astype first, leaving the caller's array
untouched. -/
theorem C10_inplace_normalization (env : FaissEnv CpuIdx Blob eps)
    (idx : GPUVectorIndex CpuIdx) (v q : NpArray) (ids : Option (List Int))
    (k : Nat) (np2 : Option Nat) (hf : env.faiss_available = true) :
    ((idx.train env v).caller
        = if v.dtype = NpDType.float32 then env.normalize_L2 v else v)
    ∧ (idx.is_trained = true →
       (idx.add env v ids).caller
        = if v.dtype = NpDType.float32 then env.normalize_L2 v else v)
    ∧ ((idx.search env q k np2).caller
        = if q.dtype = NpDType.float32 then env.normalize_L2 q else q) := by
  have hnf : ¬ env.faiss_available = false := by simp [hf]
  have hcal : ∀ a : NpArray, callerAfterPrep env a
      = if a.dtype = NpDType.float32 then env.normalize_L2 a else a := by
    intro a
    by_cases hd : a.dtype = NpDType.float32
    · simp [callerAfterPrep, prepArray, hd]
    · simp [callerAfterPrep, hd]
  refine ⟨?_, ?_, ?_⟩
  · simp only [GPUVectorIndex.train]
    rw [if_neg hnf]
    cases hr : env.cpu_train idx.cpu_index (prepArray env v) <;> simp [hr, hcal]
  · intro ht
    simp only [GPUVectorIndex.add]
    rw [if_neg (by simp [ht]), if_neg hnf]
    cases ids with
    | none =>
      cases hr : env.cpu_add idx.cpu_index (prepArray env v) <;> simp [hr, hcal]
    | some l =>
      cases hr : env.cpu_add_with_ids idx.cpu_index (prepArray env v) l <;> simp [hr, hcal]
  · simp only [GPUVectorIndex.search]
    rw [if_neg hnf]
    cases idx.gpu_index <;> simp [hcal]

/-- C10 witness: on a concrete FAISS-mode facade, the caller arrays left
behind by train, add and search are the normalized originals (the inputs
being float32). -/
theorem C10_witness :
    ((idxCfgTrained.train envCfg arrOne).caller
        = if arrOne.dtype = NpDType.float32 then envCfg.normalize_L2 arrOne else arrOne)
    ∧ ((idxCfgTrained.add envCfg arrOne none).caller
        = if arrOne.dtype = NpDType.float32 then envCfg.normalize_L2 arrOne else arrOne)
    ∧ ((idxCfgTrained.search envCfg queryOne 1 none).caller
        = if queryOne.dtype = NpDType.float32 then envCfg.normalize_L2 queryOne else queryOne) := by
  have h := C10_inplace_normalization envCfg idxCfgTrained arrOne queryOne none 1 none rfl
  exact ⟨h.1, h.2.1 rfl, h.2.2⟩

/-- C9: the trained flag is monotone over every sequence of facade method
invocations — once the index is Trained it stays Trained — and a step that
takes the index from Untrained to Trained can only be a train invocation.
load is a classmethod returning a fresh facade (Trained in the FAISS
path) and mutates no existing index, so it cannot un-train one. -/
theorem C9_trained_monotone (env : FaissEnv CpuIdx Blob eps)
    (idx : GPUVectorIndex CpuIdx) (ops : List FacadeOp) :
    (idx.is_trained = true → (runOps env idx ops).is_trained = true)
    ∧ (∀ op, idx.is_trained = false → (FacadeOp.step env idx op).is_trained = true →
        ∃ v, op = FacadeOp.train v) :=
  ⟨fun h => runOps_trained env ops idx h,
   fun op h0 h1 => step_to_trained_only_train env idx op h0 h1⟩

/-- C9 witness: a trained index stays trained across a concrete sequence
of save and search invocations. -/
theorem C9_witness :
    (runOps envMock idxMockTrained
        [FacadeOp.save, FacadeOp.search queryOne 1 none]).is_trained = true :=
  (C9_trained_monotone envMock idxMockTrained
    [FacadeOp.save, FacadeOp.search queryOne 1 none]).1 rfl

/-- C2: for a trained FAISS-mode index whose GPU clone is in sync with the
CPU index (as it is after every mutating call), save followed by load with
the same config followed by search(q, k) yields exactly the result of
search(q, k) on the original index, for the same nprobe.  The lossless
write/read round-trip of the persistence layer, which lives inside FAISS,
is taken as a hypothesis, following the specification's persistence
contract. -/
theorem C2_save_load_search_roundtrip (env : FaissEnv CpuIdx Blob eps)
    (idx : GPUVectorIndex CpuIdx) (q : NpArray) (k : Nat) (np2 : Option Nat) (b : Blob)
    (hrt : ∀ ci, env.read_index (env.write_index ci) = Except.ok ci)
    (hf : env.faiss_available = true)
    (htr : idx.is_trained = true)
    (hsync : idx.gpu_index = some idx.cpu_index)
    (hgpus : idx.config.num_gpus ≠ 0)
    (hsave : idx.save env = some b) :
    Except.map (fun j => (GPUVectorIndex.search env j q k np2).result)
        (GPUVectorIndex.load env b idx.config)
      = Except.ok ((idx.search env q k np2).result) := by
  have hb : b = env.write_index idx.cpu_index := by
    simp [GPUVectorIndex.save, hf] at hsave
    exact hsave.symm
  subst hb
  have hload : GPUVectorIndex.load env (env.write_index idx.cpu_index) idx.config
      = Except.ok { config := idx.config, is_trained := true, mock_vectors := [],
                    gpu_resources := idx.config.num_gpus,
                    cpu_index := idx.cpu_index,
                    gpu_index := some idx.cpu_index } := by
    simp [GPUVectorIndex.load, hf, hrt, GPUVectorIndex.init, GPUVectorIndex.sync_to_gpu, hgpus]
  rw [hload]
  simp only [Except.map]
  congr 1
  simp [GPUVectorIndex.search, hf, hsync]

/-- C2 witness: the round-trip theorem evaluated on a concrete trained
index over the config-carrying environment. -/
theorem C2_witness :
    Except.map (fun j => (GPUVectorIndex.search envCfg j queryOne 3 none).result)
        (GPUVectorIndex.load envCfg cfg64 idxCfgTrained.config)
      = Except.ok ((idxCfgTrained.search envCfg queryOne 3 none).result) :=
  C2_save_load_search_roundtrip envCfg idxCfgTrained queryOne 3 none cfg64
    (fun ci => rfl) rfl rfl rfl (by decide) rfl

/-- C3 counterexample: in the mock path, training on a sample batch
strictly smaller than nlist succeeds and marks the index Trained, instead
of failing and leaving it Untrained as the claim requires. -/
theorem C3_counterexample :
    arrOne.rows.length < cfgSmall.nlist
    ∧ ((GPUVectorIndex.init envMock cfgSmall).train envMock arrOne).result = Except.ok ()
    ∧ ((GPUVectorIndex.init envMock cfgSmall).train envMock arrOne).state.is_trained = true :=
  ⟨by decide, rfl, rfl⟩

/-- C3 amended: train performs no sample-count check of its own.  In the
mock path it always succeeds and marks the index Trained regardless of
sample size; in the FAISS path a rejection raised by the backend training
call (as FAISS produces when there are fewer samples than clusters)
propagates before is_trained is assigned, leaving the facade unchanged and
hence Untrained.  No InsufficientTrainingDataError type exists in the
facade. -/
theorem C3_amended_train_no_check (env : FaissEnv CpuIdx Blob eps)
    (idx : GPUVectorIndex CpuIdx) (v : NpArray) :
    (env.faiss_available = false →
       (idx.train env v).result = Except.ok ()
       ∧ (idx.train env v).state = { idx with is_trained := true })
    ∧ (∀ e, env.faiss_available = true →
       env.cpu_train idx.cpu_index (prepArray env v) = Except.error e →
       (idx.train env v).result = Except.error (PyError.backend e)
       ∧ (idx.train env v).state = idx) := by
  constructor
  · intro hf
    constructor <;> simp [GPUVectorIndex.train, hf]
  · intro e hf hr
    have hnf : ¬ env.faiss_available = false := by simp [hf]
    constructor <;> simp [GPUVectorIndex.train, hnf, hr]

/-- C3 witness: a concrete FAISS-mode environment whose backend training
call fails; train surfaces the backend error and leaves the facade in its
untrained initial state. -/
theorem C3_witness :
    ((GPUVectorIndex.init envTrainFail cfgSmall).train envTrainFail arrOne).result
        = Except.error (PyError.backend ())
    ∧ ((GPUVectorIndex.init envTrainFail cfgSmall).train envTrainFail arrOne).state
        = GPUVectorIndex.init envTrainFail cfgSmall :=
  (C3_amended_train_no_check envTrainFail
    (GPUVectorIndex.init envTrainFail cfgSmall) arrOne).2 () rfl rfl

/-- C5 counterexample: in the mock path, search on an Untrained index
returns a zero-filled result instead of failing. -/
theorem C5_counterexample :
    idxMockUntrained.is_trained = false
    ∧ (idxMockUntrained.search envMock queryOne 1 none).result
        = Except.ok ([[(0.0 : Float)]], [[(0 : Int)]]) :=
  ⟨rfl, rfl⟩

/-- C5 amended: search performs no trained-state check.  In the FAISS
path, calling search while the facade is Untrained (in any state reachable
from construction) fails with the AttributeError produced by dereferencing
the still-None gpu_index, not with a dedicated UntrainedIndexError; in the
mock path search returns a zero-filled (n, k) result regardless of
state. -/
theorem C5_amended_search_untrained :
    (∀ (env : FaissEnv CpuIdx Blob eps) (cfg : GPUIndexConfig) (ops : List FacadeOp)
       (q : NpArray) (k : Nat) (np2 : Option Nat),
       env.faiss_available = true →
       (runOps env (GPUVectorIndex.init env cfg) ops).is_trained = false →
       ((runOps env (GPUVectorIndex.init env cfg) ops).search env q k np2).result
         = Except.error (PyError.attributeError noneNprobeMsg))
    ∧ (∀ (env : FaissEnv CpuIdx Blob eps) (idx : GPUVectorIndex CpuIdx)
       (q : NpArray) (k : Nat) (np2 : Option Nat),
       env.faiss_available = false →
       (idx.search env q k np2).result
         = Except.ok (np_zeros_float q.rows.length k, np_zeros_int q.rows.length k)) := by
  constructor
  · intro env cfg ops q k np2 hf huntr
    have hgpu : (runOps env (GPUVectorIndex.init env cfg) ops).gpu_index = none :=
      runOps_gpu_inv env ops _ (fun _ => rfl) huntr
    have hnf : ¬ env.faiss_available = false := by simp [hf]
    simp [GPUVectorIndex.search, hnf, hgpu]
  · intro env idx q k np2 hf
    simp [GPUVectorIndex.search, hf]

/-- C5 witness: concretely, FAISS-mode search on a freshly constructed
(untrained) facade fails with the AttributeError, and mock-mode search on
an untrained facade returns the zero matrices. -/
theorem C5_witness :
    ((runOps envTrainFail (GPUVectorIndex.init envTrainFail cfgDim4) []).search
          envTrainFail queryOne 1 none).result
        = Except.error (PyError.attributeError noneNprobeMsg)
    ∧ (idxMockUntrained.search envMock queryOne 1 none).result
        = Except.ok (np_zeros_float queryOne.rows.length 1, np_zeros_int queryOne.rows.length 1) :=
  ⟨C5_amended_search_untrained.1 envTrainFail cfgDim4 [] queryOne 1 none rfl rfl,
   C5_amended_search_untrained.2 envMock idxMockUntrained queryOne 1 none rfl⟩

/-- C6 counterexample: saving an index built with dim 128 produces a blob
embedding that configuration; loading it into a facade configured with dim
64 succeeds and returns a Trained facade instead of failing with
IncompatibleIndexFormatError. -/
theorem C6_counterexample :
    cfg128.dim ≠ cfg64.dim
    ∧ (GPUVectorIndex.init envCfg cfg128).save envCfg = some cfg128
    ∧ GPUVectorIndex.load envCfg cfg128 cfg64
        = Except.ok { config := cfg64, is_trained := true, mock_vectors := [],
                      gpu_resources := 1, cpu_index := cfg128, gpu_index := some cfg128 } :=
  ⟨by decide, rfl, rfl⟩

/-- C6 amended: load performs no compatibility check between the persisted
blob and the caller-supplied config.  Whenever the backend can read the
blob, load succeeds — regardless of any disagreement on dimension or m —
returning a fresh facade marked Trained that carries the caller's config;
no IncompatibleIndexFormatError exists.  Being a classmethod constructing
a new object, load mutates no pre-existing facade state. -/
theorem C6_amended_load_no_check (env : FaissEnv CpuIdx Blob eps)
    (blob : Blob) (cfg : GPUIndexConfig) (ci : CpuIdx)
    (hf : env.faiss_available = true)
    (hread : env.read_index blob = Except.ok ci) :
    GPUVectorIndex.load env blob cfg
      = Except.ok { config := cfg, is_trained := true, mock_vectors := [],
                    gpu_resources := cfg.num_gpus,
                    cpu_index := ci,
                    gpu_index := if cfg.num_gpus ≠ 0 then some ci else none } := by
  simp only [GPUVectorIndex.load, hf, hread, GPUVectorIndex.init, GPUVectorIndex.sync_to_gpu]
  by_cases hg : cfg.num_gpus ≠ 0
  · simp [hg]
  · simp [hg]

/-- C6 witness: the amended theorem applied to the concrete mismatched
load: it succeeds and yields a trained facade with the caller's config. -/
theorem C6_witness :
    GPUVectorIndex.load envCfg cfg128 cfg64
      = Except.ok { config := cfg64, is_trained := true, mock_vectors := [],
                    gpu_resources := cfg64.num_gpus, cpu_index := cfg128,
                    gpu_index := if cfg64.num_gpus ≠ 0 then some cfg128 else none } :=
  C6_amended_load_no_check envCfg cfg128 cfg64 cfg128 rfl rfl

/-- C7 counterexample: a trained mock-mode index holding zero entries, on
which search returns zero distances and zero ids — not the sentinel pairs
(inf, -1) — for a 2-slot query. -/
theorem C7_counterexample :
    idxMockTrained.is_trained = true
    ∧ idxMockTrained.size envMock = 0
    ∧ (idxMockTrained.search envMock queryOne 2 none).result
        = Except.ok ([[(0.0 : Float), 0.0]], [[(0 : Int), 0]])
    ∧ ((0 : Int) ≠ -1) :=
  ⟨rfl, rfl, rfl, by decide⟩

/-- C7 amended: in the mock path, search never raises and returns
zero-filled (n, k) matrices — all-zero distances and all-zero ids, not
sentinel (+inf, -1) pairs — for every index and in particular for a
trained one holding zero entries, leaving the facade unchanged; in the
FAISS path the output of search on an empty index is whatever the backend
search returns. -/
theorem C7_amended_empty_search (env : FaissEnv CpuIdx Blob eps)
    (idx : GPUVectorIndex CpuIdx) (q : NpArray) (k : Nat) (np2 : Option Nat)
    (hf : env.faiss_available = false)
    (htr : idx.is_trained = true) (hsz : idx.size env = 0) :
    (idx.search env q k np2).result
      = Except.ok (np_zeros_float q.rows.length k, np_zeros_int q.rows.length k)
    ∧ (idx.search env q k np2).state = idx := by
  constructor <;> simp [GPUVectorIndex.search, hf]

/-- C7 witness: the amended theorem evaluated on the concrete trained,
empty mock index. -/
theorem C7_witness :
    (idxMockTrained.search envMock queryOne 2 none).result
      = Except.ok (np_zeros_float queryOne.rows.length 2, np_zeros_int queryOne.rows.length 2)
    ∧ (idxMockTrained.search envMock queryOne 2 none).state = idxMockTrained :=
  C7_amended_empty_search envMock idxMockTrained queryOne 2 none rfl rfl rfl
